import Mathlib

/-!
Verification of the `ai-chat-widget` repository: an embeddable browser
chat/voice widget (`src/widget.tsx`) plus three relay handler variants
(Express and Vercel in the server sources, Netlify in the README).

The development is a shallow embedding: the TypeScript data model and the
pure logic of each operation are translated into executable Lean
definitions, and the claims of the specification are settled as theorems
about those definitions.  Browser/framework effects (React state cells,
`fetch`, speech engines) are made explicit: a send is a function of the
current state, the submitted text, and the observed network outcome.
-/

namespace AgentWidget

/-! ## Widget configuration (`AgentWidgetConfig`, `defaultConfig`, `useConfig`) -/

/-- Display position, `position?: "bottom-right" | "bottom-left" | "top-right" | "top-left"`. -/
inductive Position where
  | bottomRight
  | bottomLeft
  | topRight
  | topLeft
deriving DecidableEq, Repr

/-- Host-supplied theme object; every field is optional in the TypeScript type. -/
structure ThemeConfig where
  primaryColor : Option String := none
  backgroundColor : Option String := none
  textColor : Option String := none
  fontFamily : Option String := none
deriving DecidableEq, Repr

/-- Host-supplied agent identity, `agent?: { name?: string; avatar?: string }`. -/
structure AgentConfig where
  name : Option String := none
  avatar : Option String := none
deriving DecidableEq, Repr

/-- The `AgentWidgetConfig` type of `widget.tsx`: every field optional.
`none` models an absent (or `undefined`) field. -/
structure AgentWidgetConfig where
  position : Option Position := none
  theme : Option ThemeConfig := none
  agent : Option AgentConfig := none
  enableVoice : Option Bool := none
  context : Option String := none
  languageOptions : Option (List String) := none
deriving DecidableEq, Repr

/-- The `defaultConfig` constant of `widget.tsx` (lines 29-48): position
bottom-right, the documented theme colors and font stack, agent
"HelperBot" with empty avatar, voice enabled, languages `["en","hi","es"]`,
and `context: undefined`. -/
def defaultConfig : AgentWidgetConfig :=
  { position := some Position.bottomRight
    theme := some
      { primaryColor := some "#4F46E5"
        backgroundColor := some "#ffffff"
        textColor := some "#111827"
        fontFamily :=
          some "Inter, system-ui, -apple-system, Segoe UI, Roboto, Arial, sans-serif" }
    agent := some { name := some "HelperBot", avatar := some "" }
    enableVoice := some true
    context := none
    languageOptions := some ["en", "hi", "es"] }

/-- Shallow object spread `{ ...base, ...override }` on two configuration
objects: a field of the override wins whenever the host supplied it, and the
spread is shallow, so a supplied `theme`/`agent` object replaces the default
one wholesale.  (A key explicitly set to `undefined` is conflated with an
absent key; no claim distinguishes the two.) -/
def mergeConfig (base override : AgentWidgetConfig) : AgentWidgetConfig :=
  { position := override.position <|> base.position
    theme := override.theme <|> base.theme
    agent := override.agent <|> base.agent
    enableVoice := override.enableVoice <|> base.enableVoice
    context := override.context <|> base.context
    languageOptions := override.languageOptions <|> base.languageOptions }

/-- The `useState` initializer of `useConfig`:
`{ ...defaultConfig, ...(window.AgentWidgetConfig ?? {}) }`.
`host = none` models a page that defines no `window.AgentWidgetConfig`. -/
def useConfigInit (host : Option AgentWidgetConfig) : AgentWidgetConfig :=
  mergeConfig defaultConfig (host.getD {})

/-- The mount-time refresh of `useConfig`:
`setCfg(prev => ({ ...prev, ...(window.AgentWidgetConfig ?? {}) }))`,
applied to the initial value. -/
def useConfigMounted (host : Option AgentWidgetConfig) : AgentWidgetConfig :=
  mergeConfig (useConfigInit host) (host.getD {})

/-- JavaScript truthiness of `config.enableVoice` (a `boolean | undefined`):
truthy exactly when the field is present and `true`. -/
def enableVoiceFlag (config : AgentWidgetConfig) : Bool :=
  config.enableVoice.getD false

/-! ## Widget state (`Widget` component of `widget.tsx`) -/

/-- The chat/voice mode toggle. -/
inductive Mode where
  | chat
  | voice
deriving DecidableEq, Repr

/-- Message roles used by the widget (`role: "user" | "assistant"`). -/
inductive Role where
  | user
  | assistant
deriving DecidableEq, Repr

/-- The in-memory `Message` record of `widget.tsx` (lines 95-100).
`crypto.randomUUID()` identifiers are modelled as natural numbers supplied
at creation time. -/
structure Message where
  id : Nat
  role : Role
  text : String
  lang : String
deriving DecidableEq, Repr

/-- The mutable state cells of the `Widget` component that the claims
concern: `open`, `mode`, `lang`, `input`, `messages`, `loading`.
(`open` is a Lean keyword, hence the field name `isOpen`.) -/
structure WidgetState where
  isOpen : Bool
  mode : Mode
  lang : String
  input : String
  messages : List Message
  loading : Bool
deriving DecidableEq, Repr

/-- The `useState` initializers of the `Widget` component (lines 104-111):
`open = false`, `mode = config.enableVoice ? "voice" : "chat"`,
`lang = config.languageOptions?.[0] ?? "en"`, empty input, empty message
list, not loading. -/
def initState (config : AgentWidgetConfig) : WidgetState :=
  { isOpen := false
    mode := if enableVoiceFlag config then Mode.voice else Mode.chat
    lang := (config.languageOptions.getD []).headD "en"
    input := ""
    messages := []
    loading := false }

/-! ## The wire payload and the send operation -/

/-- Wire role of a `{role, content}` pair; the relay additionally accepts
`system`. -/
inductive WireRole where
  | user
  | assistant
  | system
deriving DecidableEq, Repr

/-- Widget roles map to the like-named wire roles. -/
def Role.toWire : Role → WireRole
  | Role.user => WireRole.user
  | Role.assistant => WireRole.assistant

/-- One `{role, content}` pair of the wire payload. -/
structure WireMessage where
  role : WireRole
  content : String
deriving DecidableEq, Repr

/-- The JSON body `sendMessage` posts to `/api/chat`:
`{ messages: [...].map(m => ({role: m.role, content: m.text})), context, lang }`. -/
structure ChatRequestBody where
  messages : List WireMessage
  context : Option String
  lang : String
deriving DecidableEq, Repr

/-- Outcome of `await fetch(...)` followed by `await res.json()`:
either a parsed JSON object whose `reply` field is the given optional
string, or a thrown network/parse error. -/
inductive FetchResult where
  | ok (reply : Option String)
  | err
deriving DecidableEq, Repr

/-- JavaScript truthiness of an optional string (`undefined` and `""` are
falsy). -/
def truthyStr : Option String → Bool
  | none => false
  | some s => !s.isEmpty

/-- JavaScript `text.trim()`: strip leading and trailing whitespace, modelled
structurally on the character list (ASCII whitespace). -/
def jsTrim (s : String) : String :=
  String.mk (((s.data.dropWhile Char.isWhitespace).reverse.dropWhile Char.isWhitespace).reverse)

/-- The fixed fallback text appended on a failed send. -/
def fallbackText : String := "Sorry, something went wrong."

/-- Result of one call of `sendMessage`: the widget state after the call
completes, the request body that was posted (`none` when the guard rejected
the submission and no request was issued), and whether speech synthesis was
invoked for the reply. -/
structure SendOutcome where
  state : WidgetState
  request : Option ChatRequestBody
  speaks : Bool
deriving DecidableEq, Repr

/-- The `sendMessage` function of `widget.tsx` (lines 185-239), as a function
of the pre-call state, the submitted text, and the observed fetch outcome.

* Guard: `if (!text.trim()) return` — a blank submission changes nothing and
  posts nothing.
* Otherwise the user message is appended, the input cleared, `loading` set,
  and the posted body is `[...messages, userMsg]` (the pre-call list plus the
  new user message) mapped to `{role, content}`, with `config.context` and
  the current `lang`.
* On a parsed response, an assistant message with text `data.reply ?? ""` is
  appended, and speech is synthesized exactly when
  `mode === "voice" && config.enableVoice && data.reply` (truthiness).
* On a thrown fetch/parse error the fixed fallback assistant message is
  appended instead.
* `finally { setLoading(false) }` clears the loading flag on every path. -/
def sendMessage (config : AgentWidgetConfig) (st : WidgetState) (text : String)
    (outcome : FetchResult) (idU idA : Nat) : SendOutcome :=
  if (jsTrim text).isEmpty then
    { state := st, request := none, speaks := false }
  else
    let userMsg : Message := { id := idU, role := Role.user, text := text, lang := st.lang }
    let afterUser : WidgetState :=
      { st with messages := st.messages ++ [userMsg], input := "", loading := true }
    let body : ChatRequestBody :=
      { messages := (st.messages ++ [userMsg]).map fun m => { role := m.role.toWire, content := m.text }
        context := config.context
        lang := st.lang }
    match outcome with
    | FetchResult.ok reply =>
        let assistantMsg : Message :=
          { id := idA, role := Role.assistant, text := reply.getD "", lang := st.lang }
        { state :=
            { afterUser with
              messages := afterUser.messages ++ [assistantMsg]
              loading := false }
          request := some body
          speaks := (st.mode == Mode.voice) && enableVoiceFlag config && truthyStr reply }
    | FetchResult.err =>
        let assistantMsg : Message :=
          { id := idA, role := Role.assistant, text := fallbackText, lang := st.lang }
        { state :=
            { afterUser with
              messages := afterUser.messages ++ [assistantMsg]
              loading := false }
          request := some body
          speaks := false }

/-! ## User-interface events

Every state-mutating operation of the `Widget` component, so that
append-only evolution of the message list can be stated over arbitrary
interaction sequences. -/

/-- One user-interface event of the `Widget` component: a submission (with
its observed network outcome and fresh message identifiers), a language
selection, a mode-toggle click, the host-facing `open`/`close`/`toggle`
operations, and typing in the input field. -/
inductive UiEvent where
  | submit (text : String) (outcome : FetchResult) (idU idA : Nat)
  | setLang (l : String)
  | setMode (m : Mode)
  | setOpen (b : Bool)
  | toggleOpen
  | setInput (s : String)
deriving DecidableEq, Repr

/-- State transition of the widget on one event.  Only `submit` (via
`sendMessage`) touches the message list; the other handlers write the
corresponding single state cell, exactly as in `widget.tsx`. -/
def step (config : AgentWidgetConfig) (st : WidgetState) : UiEvent → WidgetState
  | UiEvent.submit text outcome idU idA => (sendMessage config st text outcome idU idA).state
  | UiEvent.setLang l => { st with lang := l }
  | UiEvent.setMode m => { st with mode := m }
  | UiEvent.setOpen b => { st with isOpen := b }
  | UiEvent.toggleOpen => { st with isOpen := !st.isOpen }
  | UiEvent.setInput s => { st with input := s }

/-- Run a sequence of user-interface events from a state. -/
def runEvents (config : AgentWidgetConfig) (st : WidgetState) : List UiEvent → WidgetState
  | [] => st
  | ev :: rest => runEvents config (step config st ev) rest

/-- Specification-side description of the messages one turn appends: nothing
for a blank submission; otherwise the user message followed by the received
assistant reply (text `reply ?? ""`) or, on failure, the fixed fallback
reply. -/
def turnMessages (lang text : String) (outcome : FetchResult) (idU idA : Nat) : List Message :=
  if (jsTrim text).isEmpty then []
  else
    [{ id := idU, role := Role.user, text := text, lang := lang },
     match outcome with
     | FetchResult.ok reply =>
         { id := idA, role := Role.assistant, text := reply.getD "", lang := lang }
     | FetchResult.err =>
         { id := idA, role := Role.assistant, text := fallbackText, lang := lang }]

/-- Specification-side description of the messages appended by an event
sequence: the append-order interleaving of user submissions and
received/fallback assistant replies, tracking the active language. -/
def appendedMessages (lang : String) : List UiEvent → List Message
  | [] => []
  | UiEvent.submit t o iU iA :: rest => turnMessages lang t o iU iA ++ appendedMessages lang rest
  | UiEvent.setLang l :: rest => appendedMessages l rest
  | _ :: rest => appendedMessages lang rest

/-! ## Relay endpoint: prompt assembly (shared by all handler variants) -/

/-- The wire-level conversation request the relay destructures from the
request body: `{ messages?, context?, lang? }`. -/
structure ConversationRequest where
  messages : Option (List WireMessage) := none
  context : Option String := none
  lang : Option String := none
deriving DecidableEq, Repr

/-- `m.role.toUpperCase()` for the three accepted wire roles. -/
def WireRole.toUpper : WireRole → String
  | WireRole.user => "USER"
  | WireRole.assistant => "ASSISTANT"
  | WireRole.system => "SYSTEM"

/-- `(messages ?? []).map(m => "ROLE: content").join("\n")`. -/
def conversation (messages : Option (List WireMessage)) : String :=
  String.intercalate "\n"
    ((messages.getD []).map fun m => m.role.toUpper ++ ": " ++ m.content)

/-- The conditional context entry `context ? "Context from host site: ..." : undefined`:
present exactly when `context` is truthy (present and non-empty). -/
def ctxEntry : Option String → Option String
  | none => none
  | some c => if c.isEmpty then none else some ("Context from host site: " ++ c)

/-- The conditional language entry `lang ? "Respond in language code: ..." : undefined`. -/
def langEntry : Option String → Option String
  | none => none
  | some l => if l.isEmpty then none else some ("Respond in language code: " ++ l)

/-- `.filter(Boolean)` on an array of `string | undefined`: keeps exactly the
truthy entries (drops `undefined` and the empty string). -/
def filterTruthy (entries : List (Option String)) : List String :=
  (entries.filterMap id).filter fun s => !s.isEmpty

/-- The lines of the assembled system-instruction block: the fixed role
statement, then the conditional context and language entries, filtered by
truthiness. -/
def sysLines (context lang : Option String) : List String :=
  filterTruthy
    [some "You are an embedded website assistant widget.",
     ctxEntry context,
     langEntry lang]

/-- `systemInstruction = [...].filter(Boolean).join("\n")`. -/
def systemInstruction (context lang : Option String) : String :=
  String.intercalate "\n" (sysLines context lang)

/-- The flattened prompt handed to `generateText`:
`` `${systemInstruction}\n\nConversation so far:\n${conversation}\n\nASSISTANT:` ``. -/
def buildPrompt (req : ConversationRequest) : String :=
  systemInstruction req.context req.lang ++ "\n\nConversation so far:\n" ++
    conversation req.messages ++ "\n\nASSISTANT:"

/-! ## Relay endpoint: the three handler variants

Each handler is a function of the request data and of the external
`generateText` call, which is passed in as a function that either returns
the generated text or throws (`Except.error`).  A response body is either a
`{reply}` object or an `{error}` object — the handlers construct one or the
other, never a mix. -/

/-- JSON response body written by a relay handler: `{reply: ...}` or
`{error: ...}`. -/
inductive RespBody where
  | reply (text : String)
  | error (msg : String)
deriving DecidableEq, Repr

namespace VercelApi

/-- Response produced by the Vercel handler: status, the headers the handler
code itself sets (none — the code never calls `res.setHeader`), and the JSON
body. -/
structure VercelResponse where
  status : Nat
  headers : List (String × String)
  body : RespBody
deriving DecidableEq, Repr

/-- The Vercel serverless handler (`api/chat.ts`): a non-POST method gets
`405 {error: "Method not allowed"}` before any processing; otherwise the
body parse (`typeof req.body === "string" ? JSON.parse(req.body) : req.body`)
and the `generateText` call run inside `try`, any thrown error yielding
`500 {error: "Failed to generate response"}`, and success yielding
`200 {reply: text}`.  `body` is the parse outcome; `generateText` is the
external model call. -/
def handler (method : String) (body : Except Unit ConversationRequest)
    (generateText : String → Except Unit String) : VercelResponse :=
  if method ≠ "POST" then
    { status := 405, headers := [], body := RespBody.error "Method not allowed" }
  else
    match body with
    | Except.error _ =>
        { status := 500, headers := [], body := RespBody.error "Failed to generate response" }
    | Except.ok req =>
        match generateText (buildPrompt req) with
        | Except.error _ =>
            { status := 500, headers := [], body := RespBody.error "Failed to generate response" }
        | Except.ok text =>
            { status := 200, headers := [], body := RespBody.reply text }

end VercelApi

namespace ExpressApi

/-- Response produced by the Express route handler. -/
structure ExpressResponse where
  status : Nat
  body : RespBody
deriving DecidableEq, Repr

/-- The Express route callback registered by `app.post("/api/chat", ...)`
(`server/index.ts`): the body has already been parsed by the
`bodyParser.json()` middleware; the `generateText` call runs inside `try`,
a thrown error yielding `500 {error: "Failed to generate response"}` and
success yielding `{reply: text}` with the default status 200. -/
def chatHandler (req : ConversationRequest)
    (generateText : String → Except Unit String) : ExpressResponse :=
  match generateText (buildPrompt req) with
  | Except.error _ =>
      { status := 500, body := RespBody.error "Failed to generate response" }
  | Except.ok text => { status := 200, body := RespBody.reply text }

/-- Route dispatch of the Express application: `app.post` registers the chat
handler for POST only, so for any other method no route of this application
matches and `none` is returned — the response is then produced by the
framework's default not-found handling, outside repository code. -/
def dispatch (method : String) (req : ConversationRequest)
    (generateText : String → Except Unit String) : Option ExpressResponse :=
  if method = "POST" then some (chatHandler req generateText) else none

end ExpressApi

namespace NetlifyApi

/-- The `corsHeaders` helper of the Netlify function (README lines 339-346):
echo the request origin, or `"*"` when absent, and allow POST/OPTIONS with
the JSON content-type header. -/
def corsHeaders (origin : Option String) : List (String × String) :=
  [("Access-Control-Allow-Origin", origin.getD "*"),
   ("Access-Control-Allow-Methods", "POST, OPTIONS"),
   ("Access-Control-Allow-Headers", "Content-Type")]

/-- Response produced by the Netlify function. -/
structure NetlifyResponse where
  statusCode : Nat
  headers : List (String × String)
  body : RespBody
deriving DecidableEq, Repr

/-- The Netlify function handler (README): identical relay logic to the
Vercel variant, but every outcome — 405, 500, and 200 — carries
`corsHeaders(event.headers?.origin)`. -/
def handler (httpMethod : String) (origin : Option String)
    (body : Except Unit ConversationRequest)
    (generateText : String → Except Unit String) : NetlifyResponse :=
  if httpMethod ≠ "POST" then
    { statusCode := 405, headers := corsHeaders origin
      body := RespBody.error "Method not allowed" }
  else
    match body with
    | Except.error _ =>
        { statusCode := 500, headers := corsHeaders origin
          body := RespBody.error "Failed to generate response" }
    | Except.ok req =>
        match generateText (buildPrompt req) with
        | Except.error _ =>
            { statusCode := 500, headers := corsHeaders origin
              body := RespBody.error "Failed to generate response" }
        | Except.ok text =>
            { statusCode := 200, headers := corsHeaders origin
              body := RespBody.reply text }

end NetlifyApi

/-! ## Helper lemmas about `sendMessage` -/

/-- One send appends exactly the turn's messages at the end of the list. -/
theorem sendMessage_state_messages (config : AgentWidgetConfig) (st : WidgetState)
    (text : String) (outcome : FetchResult) (idU idA : Nat) :
    (sendMessage config st text outcome idU idA).state.messages =
      st.messages ++ turnMessages st.lang text outcome idU idA := by
  cases outcome <;>
    by_cases h : (jsTrim text).isEmpty <;>
      simp [sendMessage, turnMessages, h]

/-- A send never changes the active language. -/
theorem sendMessage_state_lang (config : AgentWidgetConfig) (st : WidgetState)
    (text : String) (outcome : FetchResult) (idU idA : Nat) :
    (sendMessage config st text outcome idU idA).state.lang = st.lang := by
  cases outcome <;>
    by_cases h : (jsTrim text).isEmpty <;>
      simp [sendMessage, h]

/-- The loading flag is clear after every completed send. -/
theorem sendMessage_state_loading (config : AgentWidgetConfig) (st : WidgetState)
    (text : String) (outcome : FetchResult) (idU idA : Nat)
    (hblank : (jsTrim text).isEmpty = false) :
    (sendMessage config st text outcome idU idA).state.loading = false := by
  cases outcome <;> simp [sendMessage, hblank]

/-! ## Helper lemmas about prompt assembly -/

/-- Appending cannot turn a non-empty string empty. -/
theorem append_isEmpty_false (s t : String) (h : s.isEmpty = false) :
    (s ++ t).isEmpty = false := by
  have hs : s.data ≠ [] := by
    intro hd
    have hse : s = "" := @String.ext s "" hd
    rw [hse] at h
    exact absurd h (by decide)
  have hne : s ++ t ≠ "" := by
    intro he
    have hd := congrArg String.data he
    rw [String.data_append] at hd
    exact hs (List.append_eq_nil.mp hd).1
  cases hcase : (s ++ t).isEmpty with
  | false => rfl
  | true => exact absurd ((String.isEmpty_iff _).mp hcase) hne

/-- `filter(Boolean)` keeps a non-empty entry. -/
theorem filterTruthy_cons_some (s : String) (rest : List (Option String))
    (h : s.isEmpty = false) :
    filterTruthy (some s :: rest) = s :: filterTruthy rest := by
  simp [filterTruthy, h]

/-- `filter(Boolean)` drops an `undefined` entry. -/
theorem filterTruthy_cons_none (rest : List (Option String)) :
    filterTruthy (none :: rest) = filterTruthy rest := by
  simp [filterTruthy]

/-- `filter(Boolean)` of the empty array. -/
theorem filterTruthy_nil : filterTruthy [] = [] := rfl

/-- The filtered language entry is present exactly when `lang` is truthy. -/
theorem filterTruthy_langEntry (lang : Option String) :
    filterTruthy [langEntry lang] =
      if truthyStr lang then ["Respond in language code: " ++ lang.getD ""] else [] := by
  cases lang with
  | none => rfl
  | some l =>
      by_cases hl : l.isEmpty
      · simp [langEntry, hl, truthyStr, filterTruthy_cons_none, filterTruthy_nil]
      · have hl' : l.isEmpty = false := by simpa using hl
        have happ := append_isEmpty_false "Respond in language code: " l (by decide)
        simp [langEntry, hl', truthyStr,
          filterTruthy_cons_some _ _ happ, filterTruthy_nil]

/-- The system-instruction lines are the fixed role statement followed by the
context entry exactly when `context` is truthy and the language entry exactly
when `lang` is truthy. -/
theorem sysLines_eq (context lang : Option String) :
    sysLines context lang =
      "You are an embedded website assistant widget." ::
        ((if truthyStr context then ["Context from host site: " ++ context.getD ""] else []) ++
          (if truthyStr lang then ["Respond in language code: " ++ lang.getD ""] else [])) := by
  have hrole : ("You are an embedded website assistant widget." : String).isEmpty = false := by
    decide
  rw [sysLines, filterTruthy_cons_some _ _ hrole]
  congr 1
  cases context with
  | none =>
      rw [show ctxEntry none = none from rfl, filterTruthy_cons_none, filterTruthy_langEntry]
      simp [truthyStr]
  | some c =>
      by_cases hc : c.isEmpty
      · rw [ctxEntry, if_pos hc, filterTruthy_cons_none, filterTruthy_langEntry]
        simp [truthyStr, hc]
      · have hc' : c.isEmpty = false := by simpa using hc
        have happ := append_isEmpty_false "Context from host site: " c (by decide)
        rw [ctxEntry, if_neg (by simp [hc']), filterTruthy_cons_some _ _ happ,
          filterTruthy_langEntry]
        simp [truthyStr, hc']

/-! ## Claim theorems: widget -/

/-- C1: for every turn (a non-blank submission), the request body posted to
the relay contains exactly the full in-memory message sequence prior to the
turn, in order, followed by the newly submitted user message, each mapped to
a `{role, content}` pair — no message dropped, truncated, or summarized. -/
theorem c1_request_is_full_history (config : AgentWidgetConfig) (st : WidgetState)
    (text : String) (outcome : FetchResult) (idU idA : Nat)
    (hblank : (jsTrim text).isEmpty = false) :
    (sendMessage config st text outcome idU idA).request =
      some
        { messages :=
            (st.messages.map fun m => { role := m.role.toWire, content := m.text }) ++
              [{ role := WireRole.user, content := text }]
          context := config.context
          lang := st.lang } := by
  cases outcome <;> simp [sendMessage, hblank, Role.toWire]

/-- C1 witness: a concrete two-message history plus the new submission. -/
theorem c1_witness :
    (sendMessage defaultConfig
        { isOpen := true, mode := Mode.chat, lang := "en", input := "How do I embed?"
          messages :=
            [{ id := 0, role := Role.user, text := "Hello", lang := "en" },
             { id := 1, role := Role.assistant, text := "Hi! How can I help?", lang := "en" }]
          loading := false }
        "How do I embed?" (FetchResult.ok (some "Use a script tag.")) 2 3).request =
      some
        { messages :=
            [{ role := WireRole.user, content := "Hello" },
             { role := WireRole.assistant, content := "Hi! How can I help?" },
             { role := WireRole.user, content := "How do I embed?" }]
          context := none
          lang := "en" } := by
  rw [c1_request_is_full_history _ _ _ _ _ _ (by decide)]
  rfl

/-- C2: over every sequence of user-interface events, the displayed message
list evolves append-only: the resulting list is exactly the starting list
followed by the append-order interleaving of the user submissions and the
received/fallback assistant replies, so no operation reorders, removes, or
deduplicates existing messages. -/
theorem c2_messages_append_only (config : AgentWidgetConfig) (st : WidgetState)
    (evs : List UiEvent) :
    (runEvents config st evs).messages =
      st.messages ++ appendedMessages st.lang evs := by
  induction evs generalizing st with
  | nil => simp [runEvents, appendedMessages]
  | cons ev rest ih =>
      cases ev with
      | submit t o iU iA =>
          simp [runEvents, ih, step, sendMessage_state_messages,
            sendMessage_state_lang, appendedMessages]
      | setLang l => simp [runEvents, ih, step, appendedMessages]
      | setMode m => simp [runEvents, ih, step, appendedMessages]
      | setOpen b => simp [runEvents, ih, step, appendedMessages]
      | toggleOpen => simp [runEvents, ih, step, appendedMessages]
      | setInput s => simp [runEvents, ih, step, appendedMessages]

/-- C7: a send whose fetch or response parsing throws appends exactly the
turn's own user message followed by one assistant message with the fixed
fallback text (and nothing else), synthesizes no speech, and the loading
flag is false after the send completes for every outcome, success or
failure.  `sendMessage` is a total function, so no error propagates to the
UI shell. -/
theorem c7_fetch_failure_fallback (config : AgentWidgetConfig) (st : WidgetState)
    (text : String) (idU idA : Nat)
    (hblank : (jsTrim text).isEmpty = false) :
    (sendMessage config st text FetchResult.err idU idA).state.messages =
        st.messages ++
          [{ id := idU, role := Role.user, text := text, lang := st.lang },
           { id := idA, role := Role.assistant, text := fallbackText, lang := st.lang }] ∧
      (sendMessage config st text FetchResult.err idU idA).speaks = false ∧
      ∀ outcome : FetchResult,
        (sendMessage config st text outcome idU idA).state.loading = false := by
  refine ⟨?_, ?_, fun outcome => sendMessage_state_loading config st text outcome idU idA hblank⟩
  · simp [sendMessage, hblank]
  · simp [sendMessage, hblank]

/-- C7 witness: a concrete failing send from a one-message history. -/
theorem c7_witness :
    (sendMessage defaultConfig
        { isOpen := true, mode := Mode.chat, lang := "en", input := "Hi"
          messages := [{ id := 0, role := Role.user, text := "Hello", lang := "en" }]
          loading := false }
        "Hi" FetchResult.err 1 2).state.messages =
        [{ id := 0, role := Role.user, text := "Hello", lang := "en" },
         { id := 1, role := Role.user, text := "Hi", lang := "en" },
         { id := 2, role := Role.assistant, text := "Sorry, something went wrong.", lang := "en" }] ∧
      (sendMessage defaultConfig
        { isOpen := true, mode := Mode.chat, lang := "en", input := "Hi"
          messages := [{ id := 0, role := Role.user, text := "Hello", lang := "en" }]
          loading := false }
        "Hi" FetchResult.err 1 2).state.loading = false := by
  have h := c7_fetch_failure_fallback defaultConfig
    { isOpen := true, mode := Mode.chat, lang := "en", input := "Hi"
      messages := [{ id := 0, role := Role.user, text := "Hello", lang := "en" }]
      loading := false }
    "Hi" 1 2 (by decide)
  exact ⟨h.1, h.2.2 FetchResult.err⟩

/-- C9: when the relay response parses as JSON but has no `reply` field (for
example the 500 `{error: ...}` body), the widget does not append the
fallback message: it appends an assistant message whose text is the empty
string (`data.reply ?? ""`), and no speech is synthesized for that turn. -/
theorem c9_missing_reply_empty_text (config : AgentWidgetConfig) (st : WidgetState)
    (text : String) (idU idA : Nat)
    (hblank : (jsTrim text).isEmpty = false) :
    (sendMessage config st text (FetchResult.ok none) idU idA).state.messages =
        st.messages ++
          [{ id := idU, role := Role.user, text := text, lang := st.lang },
           { id := idA, role := Role.assistant, text := "", lang := st.lang }] ∧
      (sendMessage config st text (FetchResult.ok none) idU idA).speaks = false ∧
      ("" : String) ≠ fallbackText := by
  refine ⟨?_, ?_, by decide⟩
  · simp [sendMessage, hblank]
  · simp [sendMessage, hblank, truthyStr]

/-- C9 witness: a concrete send answered by a body without a `reply` field,
in voice mode with voice enabled (so only the missing field suppresses
speech). -/
theorem c9_witness :
    (sendMessage defaultConfig
        { isOpen := true, mode := Mode.voice, lang := "en", input := "Hi"
          messages := [], loading := false }
        "Hi" (FetchResult.ok none) 0 1).state.messages =
        [{ id := 0, role := Role.user, text := "Hi", lang := "en" },
         { id := 1, role := Role.assistant, text := "", lang := "en" }] ∧
      (sendMessage defaultConfig
        { isOpen := true, mode := Mode.voice, lang := "en", input := "Hi"
          messages := [], loading := false }
        "Hi" (FetchResult.ok none) 0 1).speaks = false := by
  have h := c9_missing_reply_empty_text defaultConfig
    { isOpen := true, mode := Mode.voice, lang := "en", input := "Hi"
      messages := [], loading := false }
    "Hi" 0 1 (by decide)
  exact ⟨h.1, h.2.1⟩

/-- C8: with no host configuration object at all, the widget's effective
configuration (after the `useState` initializer and the mount-time refresh)
equals every documented default: position bottom-right, primary color
`#4F46E5`, background `#ffffff`, text color `#111827`, the stated font
stack, agent name "HelperBot", voice enabled, language options
`["en","hi","es"]`, and no context. -/
theorem c8_no_config_gives_defaults :
    useConfigMounted none = defaultConfig ∧
      useConfigInit none = defaultConfig ∧
      (useConfigMounted none).position = some Position.bottomRight ∧
      (useConfigMounted none).theme =
        some
          { primaryColor := some "#4F46E5"
            backgroundColor := some "#ffffff"
            textColor := some "#111827"
            fontFamily :=
              some "Inter, system-ui, -apple-system, Segoe UI, Roboto, Arial, sans-serif" } ∧
      (useConfigMounted none).agent = some { name := some "HelperBot", avatar := some "" } ∧
      (useConfigMounted none).enableVoice = some true ∧
      enableVoiceFlag (useConfigMounted none) = true ∧
      (useConfigMounted none).languageOptions = some ["en", "hi", "es"] ∧
      (useConfigMounted none).context = none := by
  refine ⟨rfl, rfl, rfl, rfl, rfl, rfl, rfl, rfl, rfl⟩

/-- C10: the widget's initial mode upon construction is voice exactly when
voice is enabled in the effective configuration, and chat exactly when it is
disabled. -/
theorem c10_initial_mode (config : AgentWidgetConfig) :
    ((initState config).mode = Mode.voice ↔ enableVoiceFlag config = true) ∧
      ((initState config).mode = Mode.chat ↔ enableVoiceFlag config = false) := by
  by_cases h : enableVoiceFlag config <;> simp [initState, h]

/-! ## Claim theorems: relay -/

/-- Every line of the conditional context part is non-empty. -/
theorem ctxPart_all_nonempty (context : Option String) :
    (List.all
      (if truthyStr context then ["Context from host site: " ++ context.getD ""] else [])
      (fun line => !line.isEmpty)) = true := by
  cases context with
  | none => rfl
  | some c =>
      by_cases hcE : c.isEmpty
      · simp [truthyStr, hcE]
      · have hc' : c.isEmpty = false := by simpa using hcE
        simp [truthyStr, hc',
          append_isEmpty_false "Context from host site: " c (by decide)]

/-- Every line of the conditional language part is non-empty. -/
theorem langPart_all_nonempty (lang : Option String) :
    (List.all
      (if truthyStr lang then ["Respond in language code: " ++ lang.getD ""] else [])
      (fun line => !line.isEmpty)) = true := by
  cases lang with
  | none => rfl
  | some l =>
      by_cases hlE : l.isEmpty
      · simp [truthyStr, hlE]
      · have hl' : l.isEmpty = false := by simpa using hlE
        simp [truthyStr, hl',
          append_isEmpty_false "Respond in language code: " l (by decide)]

/-- C3 (amended): the assembled prompt begins with the system-instruction
block whose lines are, in order, the fixed role statement, the line
`Context from host site: ...` exactly when `context` is present **and
non-empty** (truthy), and the line `Respond in language code: ...` exactly
when `lang` is present and non-empty; every line of the block is non-empty,
so with both truthy the block has exactly three lines and with neither only
the role statement.  The block is followed by the `Conversation so far:`
label, every conversation message rendered as an upper-cased `ROLE: content`
line in order, and the trailing `ASSISTANT:` cue. -/
theorem c3_prompt_assembly (req : ConversationRequest) :
    sysLines req.context req.lang =
        "You are an embedded website assistant widget." ::
          ((if truthyStr req.context then
              ["Context from host site: " ++ req.context.getD ""] else []) ++
            (if truthyStr req.lang then
              ["Respond in language code: " ++ req.lang.getD ""] else [])) ∧
      (sysLines req.context req.lang).all (fun line => !line.isEmpty) = true ∧
      (sysLines req.context req.lang).length =
        1 + (if truthyStr req.context then 1 else 0) +
          (if truthyStr req.lang then 1 else 0) ∧
      buildPrompt req =
        String.intercalate "\n" (sysLines req.context req.lang) ++
          "\n\nConversation so far:\n" ++
          String.intercalate "\n"
            ((req.messages.getD []).map fun m => m.role.toUpper ++ ": " ++ m.content) ++
          "\n\nASSISTANT:" := by
  refine ⟨sysLines_eq req.context req.lang, ?_, ?_, rfl⟩
  · rw [sysLines_eq req.context req.lang, List.all_cons, List.all_append,
      ctxPart_all_nonempty, langPart_all_nonempty]
    decide
  · rw [sysLines_eq req.context req.lang]
    by_cases hc : truthyStr req.context <;> by_cases hl : truthyStr req.lang <;>
      simp [hc, hl]

/-- C3 counterexample: with `context` **present** but empty (`""`) and
`lang` present (`"hi"`), both fields are present yet the assembled
system-instruction block has two lines, not the three the claim asserts for
"both present": the code tests JavaScript truthiness, not presence. -/
theorem c3_counterexample :
    (some "" : Option String).isSome = true ∧
      (some "hi" : Option String).isSome = true ∧
      sysLines (some "") (some "hi") =
        ["You are an embedded website assistant widget.",
         "Respond in language code: hi"] ∧
      (sysLines (some "") (some "hi")).length ≠ 3 := by
  refine ⟨rfl, rfl, rfl, by decide⟩

/-- C4: for every POST request to the Vercel handler, a success of the model
call yields status 200 with a `{reply}` body, and any exception during
processing (body parse failure or model/network failure) yields status 500
with body exactly `{error: "Failed to generate response"}`; the same
dichotomy holds for the Express route handler (whose body arrives parsed by
middleware).  The response body is one constructor of `RespBody`, so no
response carries both a `reply` and an `error` field, and the handlers are
total functions, so no exception escapes. -/
theorem c4_relay_success_or_generic_error (body : Except Unit ConversationRequest)
    (req : ConversationRequest) (generateText : String → Except Unit String) :
    ((∃ r text, body = Except.ok r ∧ generateText (buildPrompt r) = Except.ok text ∧
        VercelApi.handler "POST" body generateText =
          { status := 200, headers := [], body := RespBody.reply text }) ∨
      VercelApi.handler "POST" body generateText =
        { status := 500, headers := [], body := RespBody.error "Failed to generate response" }) ∧
      ((∃ text, generateText (buildPrompt req) = Except.ok text ∧
          ExpressApi.chatHandler req generateText =
            { status := 200, body := RespBody.reply text }) ∨
        ExpressApi.chatHandler req generateText =
          { status := 500, body := RespBody.error "Failed to generate response" }) := by
  constructor
  · cases body with
    | error e => exact Or.inr (by simp [VercelApi.handler])
    | ok r =>
        cases hgen : generateText (buildPrompt r) with
        | error e => exact Or.inr (by simp [VercelApi.handler, hgen])
        | ok text =>
            exact Or.inl ⟨r, text, rfl, hgen, by simp [VercelApi.handler, hgen]⟩
  · cases hgen : generateText (buildPrompt req) with
    | error e => exact Or.inr (by simp [ExpressApi.chatHandler, hgen])
    | ok text =>
        refine Or.inl ⟨text, ?_, ?_⟩ <;> simp [ExpressApi.chatHandler, hgen]

/-- C5 (amended): for every request whose method is not POST, the Vercel and
Netlify handler variants return status 405 with body exactly
`{error: "Method not allowed"}` and never invoke the generation model (the
response is independent of `generateText`); the Express variant registers
its handler for POST only, so the model is never invoked either, but no 405
response is produced by repository code — route dispatch yields nothing and
the framework's default not-found handling answers. -/
theorem c5_method_guard (method : String) (hm : method ≠ "POST") :
    (∀ (body : Except Unit ConversationRequest)
        (generateText : String → Except Unit String),
        VercelApi.handler method body generateText =
          { status := 405, headers := [], body := RespBody.error "Method not allowed" }) ∧
      (∀ (origin : Option String) (body : Except Unit ConversationRequest)
          (generateText : String → Except Unit String),
          NetlifyApi.handler method origin body generateText =
            { statusCode := 405, headers := NetlifyApi.corsHeaders origin
              body := RespBody.error "Method not allowed" }) ∧
      (∀ (req : ConversationRequest) (generateText : String → Except Unit String),
          ExpressApi.dispatch method req generateText = none) := by
  refine ⟨fun body generateText => ?_, fun origin body generateText => ?_,
    fun req generateText => ?_⟩
  · unfold VercelApi.handler
    rw [if_pos hm]
  · unfold NetlifyApi.handler
    rw [if_pos hm]
  · unfold ExpressApi.dispatch
    rw [if_neg hm]

/-- C5 witness: a GET request. -/
theorem c5_witness :
    VercelApi.handler "GET" (Except.ok {}) (fun _ => Except.ok "Hello") =
        { status := 405, headers := [], body := RespBody.error "Method not allowed" } ∧
      NetlifyApi.handler "GET" (some "https://example.com") (Except.ok {})
          (fun _ => Except.ok "Hello") =
        { statusCode := 405
          headers := NetlifyApi.corsHeaders (some "https://example.com")
          body := RespBody.error "Method not allowed" } ∧
      ExpressApi.dispatch "GET" {} (fun _ => Except.ok "Hello") = none := by
  have h := c5_method_guard "GET" (by decide)
  exact ⟨h.1 _ _, h.2.1 _ _ _, h.2.2 _ _⟩

/-- C5 counterexample: for a GET to the relay path, the Express variant does
not return the claimed 405 `{error: "Method not allowed"}` response — its
only registered route is for POST, so dispatch produces no response from
repository code at all (the framework's default 404 answers instead),
refuting the claim for "every relay handler variant". -/
theorem c5_counterexample :
    ExpressApi.dispatch "GET"
        { messages := some [{ role := WireRole.user, content := "Hi" }] }
        (fun _ => Except.ok "Hello") = none ∧
      ∀ resp : ExpressApi.ExpressResponse,
        ExpressApi.dispatch "GET"
            { messages := some [{ role := WireRole.user, content := "Hi" }] }
            (fun _ => Except.ok "Hello") ≠ some resp := by
  exact ⟨rfl, fun resp h => Option.noConfusion h⟩

/-- C6 (amended): the Netlify handler variant carries, on every invocation
and every outcome (200 success, 405 wrong method, 500 failure), exactly the
`corsHeaders` of the request: `Access-Control-Allow-Origin` echoing the
request origin (or `*` when absent), `Access-Control-Allow-Methods: POST,
OPTIONS`, and `Access-Control-Allow-Headers: Content-Type`.  The Vercel
variant sets no such headers in repository code, and the Express variant
delegates CORS to third-party middleware. -/
theorem c6_netlify_cors_headers (httpMethod : String) (origin : Option String)
    (body : Except Unit ConversationRequest)
    (generateText : String → Except Unit String) :
    (NetlifyApi.handler httpMethod origin body generateText).headers =
        NetlifyApi.corsHeaders origin ∧
      List.lookup "Access-Control-Allow-Origin"
          (NetlifyApi.handler httpMethod origin body generateText).headers =
        some (origin.getD "*") ∧
      List.lookup "Access-Control-Allow-Methods"
          (NetlifyApi.handler httpMethod origin body generateText).headers =
        some "POST, OPTIONS" ∧
      List.lookup "Access-Control-Allow-Headers"
          (NetlifyApi.handler httpMethod origin body generateText).headers =
        some "Content-Type" := by
  have hh : (NetlifyApi.handler httpMethod origin body generateText).headers =
      NetlifyApi.corsHeaders origin := by
    unfold NetlifyApi.handler
    split
    · rfl
    · split
      · rfl
      · split <;> rfl
  refine ⟨hh, ?_, ?_, ?_⟩ <;> rw [hh] <;> rfl

/-- C6 counterexample: the Vercel handler variant — one of the relay handler
variants the claim quantifies over — answers a successful POST with no
headers set by repository code at all; in particular the response carries no
`Access-Control-Allow-Origin` header, refuting the claim. -/
theorem c6_counterexample :
    (VercelApi.handler "POST"
        (Except.ok { messages := some [{ role := WireRole.user, content := "Hi" }] })
        (fun _ => Except.ok "Hello")).headers = [] ∧
      List.lookup "Access-Control-Allow-Origin"
        (VercelApi.handler "POST"
          (Except.ok { messages := some [{ role := WireRole.user, content := "Hi" }] })
          (fun _ => Except.ok "Hello")).headers = none := by
  exact ⟨rfl, rfl⟩

end AgentWidget
